import Mathlib

/-!
Verification development for `tools/generate_schemas.py` of the
materialize-json-inline-schema repository.

The pipeline under verification: a catalog extractor discovers Kafka sinks
and their column metadata, a type mapper translates Materialize column types
to Kafka Connect field types, a schema generator assembles one schema
document per sink, and an output formatter renders the (sink, schema) pairs
into a properties-file or JSON artifact.

The Python source is shallowly embedded: pure functions become Lean
functions over `String`/`List`; the database catalog becomes an explicit
`Catalog` value holding the rows the SQL queries would return; Python
values that may be `None` become `Option`; a Python statement that raises
an uncaught exception is embedded as an `Option`/`Except` failure value.
-/

/-- ASCII fragment of Python `str.lower` (column type names are ASCII). -/
def py_lower_char (c : Char) : Char :=
  if 'A' ≤ c ∧ c ≤ 'Z' then Char.ofNat (c.toNat + 32) else c

/-- Python `str.isspace` characters in the ASCII range, which is also the
character class of `\s` in the regular expressions used by the parser. -/
def py_is_space (c : Char) : Bool :=
  c = ' ' || c = '\t' || c = '\n' || c = '\r' || c = '\x0b' || c = '\x0c'

/-- Python `str.strip` (ASCII whitespace). -/
def py_strip_chars (cs : List Char) : List Char :=
  ((cs.dropWhile py_is_space).reverse.dropWhile py_is_space).reverse

/-- Embedding of `materialize_type.lower().strip()`, the normalization step
at the top of `TypeMapper.map_type`. -/
def normalize_type (s : String) : String :=
  String.mk (py_strip_chars (s.data.map py_lower_char))

/-- `normalized_type.endswith('[]')` on the character list. -/
def ends_with_brackets (cs : List Char) : Bool :=
  match cs.reverse with
  | ']' :: '[' :: _ => true
  | _ => false

/-- Python `'json' in normalized_type` (substring containment). -/
def contains_json : List Char → Bool
  | [] => false
  | c :: cs => List.isPrefixOf ['j', 's', 'o', 'n'] (c :: cs) || contains_json cs

namespace TypeMapper

/-- `TypeMapper.TYPE_MAP`: the basic type mapping dict, as an association
list in source order (keys are distinct, so lookup order is immaterial). -/
def TYPE_MAP : List (String × String) :=
  [("bigint", "int64"),
   ("integer", "int32"),
   ("int", "int32"),
   ("smallint", "int32"),
   ("real", "float32"),
   ("double precision", "float64"),
   ("double", "float64"),
   ("numeric", "double"),
   ("decimal", "double"),
   ("text", "string"),
   ("varchar", "string"),
   ("char", "string"),
   ("character", "string"),
   ("character varying", "string"),
   ("boolean", "boolean"),
   ("bool", "boolean"),
   ("bytea", "bytes")]

/-- `TypeMapper.TEMPORAL_TYPES`: temporal type names paired with
(base type, logical type name). -/
def TEMPORAL_TYPES : List (String × String × String) :=
  [("timestamp", "int64", "org.apache.kafka.connect.data.Timestamp"),
   ("timestamp with time zone", "int64", "org.apache.kafka.connect.data.Timestamp"),
   ("timestamp without time zone", "int64", "org.apache.kafka.connect.data.Timestamp"),
   ("date", "int32", "org.apache.kafka.connect.data.Date"),
   ("time", "int32", "org.apache.kafka.connect.data.Time"),
   ("time with time zone", "int32", "org.apache.kafka.connect.data.Time"),
   ("time without time zone", "int32", "org.apache.kafka.connect.data.Time")]

/-- Embedding of `TypeMapper.map_type`.  Returns
`(kafka_connect_type, logical_type_name, additional_properties)`; the
additional-properties dict `{'version': 1}` is represented by its single
`version` value (`some 1`).  The three fallback branches (array suffix,
JSON-like, unknown) differ in the Python source only by the warning they
log; the logger side channel is not modeled. -/
def map_type (materialize_type : String) : String × Option String × Option Nat :=
  let normalized_type := normalize_type materialize_type
  match TEMPORAL_TYPES.lookup normalized_type with
  | some p => (p.1, some p.2, some 1)
  | none =>
    match TYPE_MAP.lookup normalized_type with
    | some t => (t, none, none)
    | none =>
      if ends_with_brackets normalized_type.data then ("string", none, none)
      else if contains_json normalized_type.data then ("string", none, none)
      else ("string", none, none)

end TypeMapper

/-- A source column type counts as temporal exactly when its normalized form
is a key of `TEMPORAL_TYPES`. -/
def is_temporal_type (t : String) : Bool :=
  (TypeMapper.TEMPORAL_TYPES.lookup (normalize_type t)).isSome

example : TypeMapper.map_type "bigint" = ("int64", none, none) := by decide
example : TypeMapper.map_type "  TIMESTAMP " =
    ("int64", some "org.apache.kafka.connect.data.Timestamp", some 1) := by decide
example : TypeMapper.map_type "uuid" = ("string", none, none) := by decide
example : TypeMapper.map_type "integer[]" = ("string", none, none) := by decide
example : TypeMapper.map_type "jsonb" = ("string", none, none) := by decide

/-! ## Data model: columns, sinks and the catalog rows the extractor queries -/

/-- The `Column` dataclass. -/
structure Column where
  name : String
  type : String
  nullable : Bool
  position : Nat
deriving DecidableEq

/-- The `Sink` dataclass.  The dataclass annotates `topic: str`, but
`get_sinks` assigns it the result of a regex search that is `None` when the
`CREATE SINK` statement has no `TOPIC = '...'` clause, so the runtime value
is optional. -/
structure Sink where
  name : String
  topic : Option String
  source_object : String
  columns : List Column
deriving DecidableEq

/-- One row of `mz_catalog.mz_sinks` as selected by `get_sinks`
(`name`, `create_sql`), plus the `type` column its WHERE clause filters on. -/
structure SinkRow where
  name : String
  create_sql : String
  type : String
deriving DecidableEq

/-- One row of `mz_catalog.mz_columns`: the object id it belongs to plus the
column attributes selected by `_get_columns`. -/
structure ColumnRow where
  id : String
  name : String
  type : String
  nullable : Bool
  position : Nat
deriving DecidableEq

/-- A row of `mz_catalog.mz_materialized_views` (resp. `mz_tables`):
the fields the `_get_columns` joins use. -/
structure ObjectRow where
  id : String
  name : String
deriving DecidableEq

/-- The relational state the catalog queries of the extractor read.
The catalog is external to the program; this structure holds exactly the
rows the four SQL queries in the source can observe. -/
structure Catalog where
  sinks : List SinkRow
  materialized_views : List ObjectRow
  tables : List ObjectRow
  columns : List ColumnRow
deriving DecidableEq

/-! ## Regex matchers of `_parse_create_sink`

The two patterns in the source are
`TOPIC\s*=\s*'([^']+)'` (case-insensitive) and
`FROM\s+\[[^\s]+\s+AS\s+"[^"]+"\."[^"]+"\."([^"]+)"\]`.
Neither pattern contains alternation, and every quantifier is bounded by a
character that its own class excludes, so both regexes are deterministic:
`re.search` is exactly a leftmost scan with the greedy matcher below. -/

/-- Split a character list at the first occurrence of `stop`:
`some (before, after)` with `stop` consumed, `none` if `stop` is absent.
This is `[^c]*c` with the starred part captured. -/
def split_at_char (stop : Char) : List Char → Option (List Char × List Char)
  | [] => none
  | c :: cs =>
    if c = stop then some ([], cs)
    else
      match split_at_char stop cs with
      | some (pre, post) => some (c :: pre, post)
      | none => none

/-- Try to match `TOPIC\s*=\s*'([^']+)'` (case-insensitively) at the head of
the list, returning the captured group. -/
def match_topic_at : List Char → Option (List Char)
  | c1 :: c2 :: c3 :: c4 :: c5 :: rest =>
    if py_lower_char c1 = 't' ∧ py_lower_char c2 = 'o' ∧ py_lower_char c3 = 'p' ∧
        py_lower_char c4 = 'i' ∧ py_lower_char c5 = 'c' then
      match (rest.dropWhile py_is_space) with
      | '=' :: r1 =>
        match (r1.dropWhile py_is_space) with
        | '\'' :: body =>
          match split_at_char '\'' body with
          | some (g, _) => if g.isEmpty then none else some g
          | none => none
        | _ => none
      | _ => none
    else none
  | _ => none

/-- Leftmost match of the topic pattern: `re.search` over the string. -/
def search_topic : List Char → Option (List Char)
  | [] => none
  | c :: cs =>
    match match_topic_at (c :: cs) with
    | some g => some g
    | none => search_topic cs

/-- Try to match
`FROM\s+\[[^\s]+\s+AS\s+"[^"]+"\."[^"]+"\."([^"]+)"\]` at the head of the
list, returning the captured group (the unqualified object name). -/
def match_source_at : List Char → Option (List Char)
  | 'F' :: 'R' :: 'O' :: 'M' :: rest =>
    match rest with
    | c :: r0 =>
      if py_is_space c then
        match (r0.dropWhile py_is_space) with
        | '[' :: r1 =>
          let token := r1.takeWhile (fun d => !py_is_space d)
          if token.isEmpty then none
          else
            match (r1.dropWhile (fun d => !py_is_space d)) with
            | d :: r2 =>
              if py_is_space d then
                match (r2.dropWhile py_is_space) with
                | 'A' :: 'S' :: e :: r3 =>
                  if py_is_space e then
                    match (r3.dropWhile py_is_space) with
                    | '"' :: r4 =>
                      match split_at_char '"' r4 with
                      | some (g1, '.' :: '"' :: r5) =>
                        if g1.isEmpty then none
                        else
                          match split_at_char '"' r5 with
                          | some (g2, '.' :: '"' :: r6) =>
                            if g2.isEmpty then none
                            else
                              match split_at_char '"' r6 with
                              | some (g3, ']' :: _) =>
                                if g3.isEmpty then none else some g3
                              | _ => none
                          | _ => none
                      | _ => none
                    | _ => none
                  else none
                | _ => none
              else none
            | [] => none
        | _ => none
      else none
    | [] => none
  | _ => none

/-- Leftmost match of the source-object pattern. -/
def search_source : List Char → Option (List Char)
  | [] => none
  | c :: cs =>
    match match_source_at (c :: cs) with
    | some g => some g
    | none => search_source cs

/-- Embedding of `MaterializeSchemaExtractor._parse_create_sink`; returns
`(topic, source_object)`, each `none` when its pattern does not occur. -/
def _parse_create_sink (create_sql : String) : Option String × Option String :=
  ((search_topic create_sql.data).map String.mk,
   (search_source create_sql.data).map String.mk)

example :
    _parse_create_sink
      "CREATE SINK q INTO KAFKA CONNECTION c (TOPIC = 'orders-noschema') FROM [u76 AS \"materialize\".\"public\".\"users_processed\"]" =
    (some "orders-noschema", some "users_processed") := by decide

example :
    _parse_create_sink "CREATE SINK broken FROM nowhere" = (none, none) := by decide

/-! ## `MaterializeSchemaExtractor._get_columns` and `get_sinks` -/

/-- Insertion step of the `ORDER BY c.position` sort. -/
def insert_by_position (c : ColumnRow) : List ColumnRow → List ColumnRow
  | [] => [c]
  | d :: ds =>
    if c.position ≤ d.position then c :: d :: ds else d :: insert_by_position c ds

/-- `ORDER BY c.position` (ascending) of the two column queries. -/
def sort_by_position : List ColumnRow → List ColumnRow
  | [] => []
  | c :: cs => insert_by_position c (sort_by_position cs)

/-- Embedding of `_get_columns`: join `mz_columns` with
`mz_materialized_views` on id, filtered by object name and ordered by
position; if that returns no rows, run the identical join against
`mz_tables`; build `Column` values from the resulting rows. -/
def _get_columns (cat : Catalog) (object_name : String) : List Column :=
  let view_rows := sort_by_position
    (cat.columns.filter
      (fun c => cat.materialized_views.any (fun v => v.id == c.id && v.name == object_name)))
  let rows :=
    if view_rows.isEmpty then
      sort_by_position
        (cat.columns.filter
          (fun c => cat.tables.any (fun t => t.id == c.id && t.name == object_name)))
    else view_rows
  rows.map (fun r =>
    { name := r.name, type := r.type, nullable := r.nullable, position := r.position })

/-- Truthiness of the `sink_names` argument in `if sink_names:`
(`None` and the empty list are both falsy, so neither adds the IN filter). -/
def sink_name_filter_active (sink_names : Option (List String)) : Bool :=
  match sink_names with
  | none => false
  | some l => !l.isEmpty

/-- The WHERE clause of the sink query: `s.type = 'kafka'`, plus
`s.name IN (...)` when a name filter was supplied. -/
def sink_row_matches (sink_names : Option (List String)) (r : SinkRow) : Bool :=
  r.type == "kafka" &&
    (if sink_name_filter_active sink_names then (sink_names.getD []).contains r.name
     else true)

/-- The rows `cur.fetchall()` returns for the sink query, in catalog
iteration order. -/
def sink_query_rows (cat : Catalog) (sink_names : Option (List String)) : List SinkRow :=
  cat.sinks.filter (sink_row_matches sink_names)

/-- The per-row loop of `get_sinks`: parse each `create_sql`, skip the row
with a warning when no source object is recovered or no columns resolve,
otherwise append the assembled `Sink`.  Returns the sink list together with
the warnings logged along the way. -/
def process_sink_rows (cat : Catalog) : List SinkRow → List Sink × List String
  | [] => ([], [])
  | row :: rest =>
    let parsed := _parse_create_sink row.create_sql
    let restResult := process_sink_rows cat rest
    match parsed.2 with
    | none =>
      (restResult.1,
       ("Could not parse source object for sink '" ++ row.name ++ "'") :: restResult.2)
    | some source_object =>
      let columns := _get_columns cat source_object
      if columns.isEmpty then
        (restResult.1,
         ("No columns found for sink '" ++ row.name ++ "' (source: " ++ source_object ++ ")")
           :: restResult.2)
      else
        ({ name := row.name, topic := parsed.1, source_object := source_object,
           columns := columns } :: restResult.1,
         restResult.2)

/-- Embedding of `MaterializeSchemaExtractor.get_sinks` (the cursor work
inside the connection scope).  Returns the sinks plus the warnings logged;
an empty query result yields the empty list and the
"No Kafka sinks found" warning, not an error. -/
def get_sinks (cat : Catalog) (sink_names : Option (List String) := none) :
    List Sink × List String :=
  let sink_rows := sink_query_rows cat sink_names
  if sink_rows.isEmpty then ([], ["No Kafka sinks found"])
  else process_sink_rows cat sink_rows

/-! ### Connection scoping (`with self.connect() as conn:`) -/

/-- Connection lifecycle events of the scoped catalog connection. -/
inductive ConnEvent where
  | acquired
  | released
deriving DecidableEq

/-- Modelled from the spec: the context-manager protocol of the external
catalog connection (`psycopg2` is not part of this repository).  The spec
describes `with self.connect() as conn:` as "a scoped acquisition with
guaranteed release on every exit path (including exceptions)": entering the
block acquires the connection, and its exit hook runs after the body on the
success path and on the exception path alike, releasing the connection
before `get_sinks` returns or re-raises. -/
def with_connection {α : Type} (body : Except String α × List ConnEvent) :
    Except String α × List ConnEvent :=
  (body.1, ConnEvent.acquired :: (body.2 ++ [ConnEvent.released]))

/-- `get_sinks` with its connection scope made explicit.  `query_ok = false`
models the database raising during the cursor work (the body of the `with`
block); the failure propagates to the caller, after the connection scope is
exited. -/
def get_sinks_traced (cat : Catalog) (sink_names : Option (List String))
    (query_ok : Bool) : Except String (List Sink × List String) × List ConnEvent :=
  with_connection
    ((if query_ok then Except.ok (get_sinks cat sink_names)
      else Except.error "Failed to execute catalog query"), [])

/-! ## `SchemaGenerator.generate_schema` -/

/-- One field dict of the generated schema.  In the Python dict the `name`
and `version` keys are present only when set (all logical type names are
non-empty strings, so `if logical_type:` is exactly presence); absence is
`none` here. -/
structure FieldDescriptor where
  type : String
  optional : Bool
  field : String
  name : Option String
  version : Option Nat
deriving DecidableEq

/-- The schema dict assembled by `generate_schema`. -/
structure SchemaDocument where
  type : String
  fields : List FieldDescriptor
  optional : Bool
  name : String
deriving DecidableEq

/-- The loop body of `generate_schema`: build one field dict from one
column.  `kafka_type, logical_type, extra_props = map_type(column.type)`;
the `name` key is added when a logical type is present, and the extra
properties (the `version` value) are merged in only then. -/
def field_of_column (column : Column) : FieldDescriptor :=
  let m := TypeMapper.map_type column.type
  { type := m.1,
    optional := column.nullable,
    field := column.name,
    name := m.2.1,
    version := match m.2.1 with
      | some _ => m.2.2
      | none => none }

/-- Embedding of `SchemaGenerator.generate_schema` for a generator
constructed with namespace `schema_namespace` (constructor default
`'materialize'`). -/
def generate_schema (sink : Sink) (schema_namespace : String := "materialize") :
    SchemaDocument :=
  { type := "struct",
    fields := sink.columns.map field_of_column,
    optional := false,
    name := schema_namespace ++ "." ++ sink.source_object }

/-! ## JSON rendering (`json.dumps` on the fixed dict shapes)

`format_properties` serializes each schema with
`json.dumps(schema, separators=(',', ': '))`; `format_json` serializes the
whole output dict with `json.dumps(output, indent=2)`.  Both are embedded
below for exactly the dict shapes this program builds, reproducing
`json.dumps`' default `ensure_ascii=True` string escaping. -/

/-- Lowercase hexadecimal digit. -/
def hex_digit (n : Nat) : Char :=
  if n < 10 then Char.ofNat (48 + n) else Char.ofNat (87 + n)

/-- A `\uXXXX` escape for a code unit below 0x10000. -/
def u_escape (n : Nat) : List Char :=
  ['\\', 'u', hex_digit (n / 4096 % 16), hex_digit (n / 256 % 16),
   hex_digit (n / 16 % 16), hex_digit (n % 16)]

/-- `json.dumps` ASCII string escaping: backslash, double quote and the
short escapes specially; other characters outside 0x20–0x7e as `\uXXXX`
(surrogate pairs above 0xFFFF). -/
def escape_json_char (c : Char) : List Char :=
  if c = '"' then ['\\', '"']
  else if c = '\\' then ['\\', '\\']
  else if c = '\n' then ['\\', 'n']
  else if c = '\t' then ['\\', 't']
  else if c = '\r' then ['\\', 'r']
  else if c = Char.ofNat 8 then ['\\', 'b']
  else if c = Char.ofNat 12 then ['\\', 'f']
  else if c.toNat < 32 then u_escape c.toNat
  else if c.toNat < 127 then [c]
  else if c.toNat < 65536 then u_escape c.toNat
  else u_escape (55296 + (c.toNat - 65536) / 1024) ++ u_escape (56320 + (c.toNat - 65536) % 1024)

/-- A JSON string literal. -/
def json_string (s : String) : String :=
  "\"" ++ String.mk (s.data.flatMap escape_json_char) ++ "\""

/-- JSON booleans. -/
def json_bool : Bool → String
  | true => "true"
  | false => "false"

/-- The key/value pairs of one field dict, values pre-rendered, in the
insertion order of `generate_schema`. -/
def field_pairs (f : FieldDescriptor) : List (String × String) :=
  [("type", json_string f.type), ("optional", json_bool f.optional),
   ("field", json_string f.field)]
  ++ (match f.name with
      | some l =>
        ("name", json_string l) ::
          (match f.version with
           | some v => [("version", Nat.repr v)]
           | none => [])
      | none => [])

/-- A compact JSON object with separators `(',', ': ')`. -/
def obj_compact (pairs : List (String × String)) : String :=
  "\x7b" ++ String.intercalate "," (pairs.map (fun p => json_string p.1 ++ ": " ++ p.2)) ++ "\x7d"

/-- `json.dumps(schema, separators=(',', ': '))` for a schema document. -/
def dumps_schema_compact (schema : SchemaDocument) : String :=
  obj_compact
    [("type", json_string schema.type),
     ("fields",
      "[" ++ String.intercalate "," (schema.fields.map (fun f => obj_compact (field_pairs f))) ++ "]"),
     ("optional", json_bool schema.optional),
     ("name", json_string schema.name)]

/-- An `indent=2` JSON object whose closing brace sits at indentation
`ind`; values are pre-rendered at indentation `ind ++ "  "`. -/
def obj_indent (ind : String) (pairs : List (String × String)) : String :=
  if pairs.isEmpty then "\x7b\x7d"
  else
    "\x7b\n" ++
      String.intercalate ",\n"
        (pairs.map (fun p => ind ++ "  " ++ json_string p.1 ++ ": " ++ p.2)) ++
      "\n" ++ ind ++ "\x7d"

/-- An `indent=2` JSON array whose closing bracket sits at indentation
`ind`; items are pre-rendered at indentation `ind ++ "  "`. -/
def arr_indent (ind : String) (items : List String) : String :=
  if items.isEmpty then "[]"
  else
    "[\n" ++ String.intercalate ",\n" (items.map (fun s => ind ++ "  " ++ s)) ++
      "\n" ++ ind ++ "]"

/-- `indent=2` rendering of a schema document. -/
def dumps_schema_indent (ind : String) (schema : SchemaDocument) : String :=
  obj_indent ind
    [("type", json_string schema.type),
     ("fields",
      arr_indent (ind ++ "  ")
        (schema.fields.map (fun f => obj_indent (ind ++ "    ") (field_pairs f)))),
     ("optional", json_bool schema.optional),
     ("name", json_string schema.name)]

/-! ## `OutputFormatter` -/

/-- The value stored under `output[sink.name]` by `format_json`. -/
structure JsonEntry where
  input_topic : String
  output_topic : String
  source_object : String
  schema : SchemaDocument
deriving DecidableEq

/-- Embedding of `input_topic.replace('-noschema', '')`: remove every
(leftmost-first, non-overlapping) occurrence of the literal `-noschema`. -/
def replace_noschema_chars : List Char → List Char
  | '-' :: 'n' :: 'o' :: 's' :: 'c' :: 'h' :: 'e' :: 'm' :: 'a' :: rest =>
    replace_noschema_chars rest
  | c :: rest => c :: replace_noschema_chars rest
  | [] => []

/-- String version of `replace_noschema_chars`. -/
def replace_noschema (s : String) : String :=
  String.mk (replace_noschema_chars s.data)

/-- A per-pair loop that stops at the first failing element: the embedding
of a Python `for` loop over `zip(sinks, schemas)` whose body may raise. -/
def collect_option {α β : Type} (f : α → Option β) : List α → Option (List β)
  | [] => some []
  | a :: t =>
    match f a with
    | none => none
    | some y =>
      match collect_option f t with
      | none => none
      | some ys => some (y :: ys)

/-- The loop body of `format_properties` for one `(sink, schema)` pair: the
four lines appended for the pair.  When `sink.topic` is `None`,
`input_topic.replace(...)` raises `AttributeError`; that exception is the
`none` result. -/
def properties_entry (output_suffix : String) (sink : Sink)
    (schema : SchemaDocument) : Option (List String) :=
  match sink.topic with
  | none => none
  | some input_topic =>
    let output_topic := replace_noschema input_topic ++ output_suffix
    let schema_json := dumps_schema_compact schema
    some ["# Sink: " ++ sink.name ++ " (from " ++ sink.source_object ++ ")",
          "schema.topic." ++ input_topic ++ "=" ++ schema_json,
          "output.topic." ++ input_topic ++ "=" ++ output_topic,
          ""]

/-- Embedding of `OutputFormatter.format_properties`.  `none` is the
uncaught `AttributeError` raised on a sink whose topic is `None`. -/
def format_properties (sinks : List Sink) (schemas : List SchemaDocument)
    (output_suffix : String := "-withschema") : Option String :=
  match collect_option (fun p => properties_entry output_suffix p.1 p.2) (sinks.zip schemas) with
  | none => none
  | some blocks =>
    some (String.intercalate "\n"
      (["# Generated schema configurations", "# Materialize JSON Schema Attacher", ""]
        ++ blocks.flatten))

/-- The loop body of `format_json` for one `(sink, schema)` pair: the key
and value assigned to `output[sink.name]`. -/
def json_entry (output_suffix : String) (sink : Sink) (schema : SchemaDocument) :
    Option (String × JsonEntry) :=
  match sink.topic with
  | none => none
  | some input_topic =>
    some (sink.name,
      { input_topic := input_topic,
        output_topic := replace_noschema input_topic ++ output_suffix,
        source_object := sink.source_object,
        schema := schema })

/-- Python dict assignment `output[sink.name] = entry` on an insertion
ordered association list: an existing key keeps its position, a new key is
appended. -/
def dict_assign (k : String) (v : JsonEntry) :
    List (String × JsonEntry) → List (String × JsonEntry)
  | [] => [(k, v)]
  | (k', v') :: rest =>
    if k' == k then (k, v) :: rest else (k', v') :: dict_assign k v rest

/-- `json.dumps(output, indent=2)` for the output dict of `format_json`. -/
def dumps_output_indent (entries : List (String × JsonEntry)) : String :=
  obj_indent ""
    (entries.map (fun kv =>
      (kv.1,
       obj_indent "  "
         [("input_topic", json_string kv.2.input_topic),
          ("output_topic", json_string kv.2.output_topic),
          ("source_object", json_string kv.2.source_object),
          ("schema", dumps_schema_indent "    " kv.2.schema)])))

/-- Embedding of `OutputFormatter.format_json`. -/
def format_json (sinks : List Sink) (schemas : List SchemaDocument)
    (output_suffix : String := "-withschema") : Option String :=
  match collect_option (fun p => json_entry output_suffix p.1 p.2) (sinks.zip schemas) with
  | none => none
  | some entries =>
    some (dumps_output_indent
      (entries.foldl (fun acc kv => dict_assign kv.1 kv.2 acc) []))

/-! ## `main` (the part after a successful connection) -/

/-- The `--format` choice. -/
inductive OutputFormat where
  | properties
  | json
deriving DecidableEq

/-- Embedding of the body of `main` after the extractor is built: get the
sinks, exit 1 when none were found, otherwise generate one schema per sink,
format, and return exit code 0 with the artifact text.  An exception while
formatting is caught by the top-level handler and turned into exit code 1. -/
def main_run (cat : Catalog) (sink_names : Option (List String))
    (schema_namespace : String) (output_suffix : String) (fmt : OutputFormat) :
    Nat × Option String :=
  let sinks := (get_sinks cat sink_names).1
  if sinks.isEmpty then (1, none)
  else
    let schemas := sinks.map (fun sink => generate_schema sink schema_namespace)
    let out :=
      match fmt with
      | OutputFormat.properties => format_properties sinks schemas output_suffix
      | OutputFormat.json => format_json sinks schemas output_suffix
    match out with
    | some text => (0, some text)
    | none => (1, none)

/-- The warning `get_sinks` logs when it skips a sink row. -/
def skip_warning (row : SinkRow) : String :=
  match (_parse_create_sink row.create_sql).2 with
  | none => "Could not parse source object for sink '" ++ row.name ++ "'"
  | some obj =>
    "No columns found for sink '" ++ row.name ++ "' (source: " ++ obj ++ ")"

/-! ## Concrete fixtures used by witnesses -/

/-- A well-formed catalog row: parsable topic and source object. -/
def c7_good_row : SinkRow :=
  { name := "users_json_sink",
    create_sql := "CREATE SINK users_json_sink FROM [u1 AS \"materialize\".\"public\".\"users_view\"] INTO KAFKA CONNECTION kc (TOPIC = 'users-noschema') FORMAT JSON",
    type := "kafka" }

/-- A catalog row whose defining SQL has no parsable source-object clause. -/
def c7_bad_row : SinkRow :=
  { name := "broken_sink",
    create_sql := "CREATE SINK broken_sink INTO KAFKA CONNECTION kc",
    type := "kafka" }

/-- Catalog for the C7 witness: one good and one bad sink over one view. -/
def c7_catalog : Catalog :=
  { sinks := [c7_good_row, c7_bad_row],
    materialized_views := [{ id := "u1", name := "users_view" }],
    tables := [],
    columns := [{ id := "u1", name := "id", type := "bigint", nullable := false,
                  position := 1 }] }

/-- Catalog for the C8 witness: one kafka sink that a name filter excludes. -/
def c8_catalog : Catalog :=
  { sinks := [{ name := "users_json_sink",
                create_sql := "CREATE SINK users_json_sink FROM [u1 AS \"materialize\".\"public\".\"users_view\"] INTO KAFKA CONNECTION kc (TOPIC = 'users-noschema') FORMAT JSON",
                type := "kafka" }],
    materialized_views := [], tables := [], columns := [] }

/-- A catalog row with a parsable source object but no `TOPIC = '...'`
clause. -/
def c10_row : SinkRow :=
  { name := "orders_sink",
    create_sql := "CREATE SINK orders_sink FROM [u7 AS \"materialize\".\"public\".\"orders_view\"] INTO KAFKA CONNECTION kc FORMAT JSON",
    type := "kafka" }

/-- Catalog for the C10 witness. -/
def c10_catalog : Catalog :=
  { sinks := [c10_row],
    materialized_views := [{ id := "u7", name := "orders_view" }],
    tables := [],
    columns := [{ id := "u7", name := "id", type := "bigint", nullable := false,
                  position := 1 }] }

/-! ## Helper lemmas -/

/-- `process_sink_rows` never reads the `sinks` field of the catalog (only
the column lookups use the catalog), so changing that field is invisible. -/
lemma process_sink_rows_sinks_irrel (cat : Catalog) (s' : List SinkRow) :
    ∀ rows, process_sink_rows { cat with sinks := s' } rows = process_sink_rows cat rows := by
  intro rows
  induction rows with
  | nil => rfl
  | cons r t ih =>
    simp only [process_sink_rows, ih]
    rfl

/-- The per-row loop distributes over list append. -/
lemma process_sink_rows_append (cat : Catalog) :
    ∀ xs ys, process_sink_rows cat (xs ++ ys) =
      ((process_sink_rows cat xs).1 ++ (process_sink_rows cat ys).1,
       (process_sink_rows cat xs).2 ++ (process_sink_rows cat ys).2) := by
  intro xs ys
  induction xs with
  | nil => simp [process_sink_rows]
  | cons r t ih =>
    cases hp : (_parse_create_sink r.create_sql).2 with
    | none => simp [process_sink_rows, hp, ih]
    | some obj =>
      by_cases hc : (_get_columns cat obj).isEmpty <;>
        simp [process_sink_rows, hp, hc, ih]

/-- A row whose source object does not parse, or resolves to no columns,
contributes no sink and exactly its skip warning. -/
lemma process_single_bad (cat : Catalog) (bad : SinkRow)
    (hbad : (_parse_create_sink bad.create_sql).2 = none ∨
      ∃ obj, (_parse_create_sink bad.create_sql).2 = some obj ∧
        _get_columns cat obj = []) :
    process_sink_rows cat [bad] = ([], [skip_warning bad]) := by
  rcases hbad with h | ⟨obj, h, hcols⟩
  · simp [process_sink_rows, skip_warning, h]
  · simp [process_sink_rows, skip_warning, h, hcols]

/-- A row with a parsable source object, resolvable columns and no parsable
topic yields its `Sink` (with `topic = none`) in the loop's result. -/
lemma mem_process_sink_rows (cat : Catalog) (row : SinkRow) (obj : String)
    (hobj : (_parse_create_sink row.create_sql).2 = some obj)
    (htop : (_parse_create_sink row.create_sql).1 = none)
    (hcols : _get_columns cat obj ≠ []) :
    ∀ rows, row ∈ rows →
      ({ name := row.name, topic := none, source_object := obj,
         columns := _get_columns cat obj } : Sink) ∈ (process_sink_rows cat rows).1 := by
  intro rows
  induction rows with
  | nil => intro h; cases h
  | cons r t ih =>
    intro hmem
    rcases List.mem_cons.mp hmem with heq | hmem'
    · subst heq
      have hc : (_get_columns cat obj).isEmpty = false := by
        rcases hL : _get_columns cat obj with _ | ⟨a, l⟩
        · exact absurd hL hcols
        · rfl
      simp [process_sink_rows, hobj, hc, htop]
    · cases hp : (_parse_create_sink r.create_sql).2 with
      | none => simpa [process_sink_rows, hp] using ih hmem'
      | some o =>
        by_cases hE : (_get_columns cat o).isEmpty
        · simpa [process_sink_rows, hp, hE] using ih hmem'
        · simp [process_sink_rows, hp, hE]
          exact Or.inr (ih hmem')

/-- Mapping a function over a list is pointwise related to the list. -/
lemma forall2_map_self {α β : Type} (f : α → β) (R : α → β → Prop) :
    ∀ l : List α, (∀ a ∈ l, R a (f a)) → List.Forall₂ R l (l.map f)
  | [], _ => List.Forall₂.nil
  | a :: t, h =>
    List.Forall₂.cons (h a (List.mem_cons_self a t))
      (forall2_map_self f R t (fun x hx => h x (List.mem_cons_of_mem a hx)))

/-- `map_type` either hits the temporal table (logical type and version
present) or returns no logical type and no extra properties. -/
lemma map_type_shape (s : String) :
    (is_temporal_type s = true ∧ ∃ b l, TypeMapper.map_type s = (b, some l, some 1)) ∨
    (is_temporal_type s = false ∧ ∃ b, TypeMapper.map_type s = (b, none, none)) := by
  cases h : TypeMapper.TEMPORAL_TYPES.lookup (normalize_type s) with
  | some p =>
    exact Or.inl ⟨by simp [is_temporal_type, h], p.1, p.2,
      by simp [TypeMapper.map_type, h]⟩
  | none =>
    refine Or.inr ⟨by simp [is_temporal_type, h], ?_⟩
    cases h2 : TypeMapper.TYPE_MAP.lookup (normalize_type s) with
    | some t => exact ⟨t, by simp [TypeMapper.map_type, h, h2]⟩
    | none =>
      refine ⟨"string", ?_⟩
      simp only [TypeMapper.map_type, h, h2]
      split_ifs <;> rfl

/-- Projections of the field built for one column. -/
lemma field_of_column_spec (c : Column) :
    (field_of_column c).field = c.name ∧
    (field_of_column c).optional = c.nullable ∧
    (field_of_column c).type = (TypeMapper.map_type c.type).1 ∧
    ((field_of_column c).name.isSome ↔ is_temporal_type c.type = true) ∧
    ((field_of_column c).version.isSome ↔ is_temporal_type c.type = true) := by
  refine ⟨rfl, rfl, rfl, ?_, ?_⟩ <;>
  · rcases map_type_shape c.type with ⟨ht, b, l, hm⟩ | ⟨ht, b, hm⟩ <;>
      simp [field_of_column, hm, ht]

/-! ## Claims -/

/-- C1: for every sink, `generate_schema` returns a document of type
`struct`, non-optional, named `<namespace>.<source_object>`, with exactly
one field per column in the columns' order, each field carrying the
column's name as `field`, its nullability as `optional` and the Type
Mapper's target type as `type`. -/
theorem generate_schema_one_field_per_column (schema_namespace : String) (sink : Sink) :
    (generate_schema sink schema_namespace).type = "struct" ∧
    (generate_schema sink schema_namespace).optional = false ∧
    (generate_schema sink schema_namespace).name
      = schema_namespace ++ "." ++ sink.source_object ∧
    (generate_schema sink schema_namespace).fields.length = sink.columns.length ∧
    List.Forall₂
      (fun (c : Column) (fd : FieldDescriptor) =>
        fd.field = c.name ∧ fd.optional = c.nullable ∧
        fd.type = (TypeMapper.map_type c.type).1)
      sink.columns (generate_schema sink schema_namespace).fields := by
  refine ⟨rfl, rfl, rfl, by simp [generate_schema], ?_⟩
  exact forall2_map_self _ _ _ (fun c _ =>
    ⟨(field_of_column_spec c).1, (field_of_column_spec c).2.1,
     (field_of_column_spec c).2.2.1⟩)

/-- C4: in every generated field, `optional` equals the column's
`nullable` flag, and the logical-type `name` key (and its `version`
property) is present exactly when the column's source type is temporal. -/
theorem generate_schema_field_invariants (schema_namespace : String) (sink : Sink) :
    List.Forall₂
      (fun (c : Column) (fd : FieldDescriptor) =>
        fd.optional = c.nullable ∧
        (fd.name.isSome ↔ is_temporal_type c.type = true) ∧
        (fd.version.isSome ↔ is_temporal_type c.type = true))
      sink.columns (generate_schema sink schema_namespace).fields :=
  forall2_map_self _ _ _ (fun c _ =>
    ⟨(field_of_column_spec c).2.1, (field_of_column_spec c).2.2.2.1,
     (field_of_column_spec c).2.2.2.2⟩)

/-- C2: any string normalizing to one of the seven temporal type names maps
to `int64` (timestamp variants) or `int32` (date/time variants) with a
non-empty logical-type identifier and extra properties `{version: 1}`. -/
theorem map_type_temporal_spec (s : String) :
    (normalize_type s = "timestamp" ∨ normalize_type s = "timestamp with time zone" ∨
        normalize_type s = "timestamp without time zone" →
      ∃ l, TypeMapper.map_type s = ("int64", some l, some 1) ∧ l ≠ "") ∧
    (normalize_type s = "date" ∨ normalize_type s = "time" ∨
        normalize_type s = "time with time zone" ∨
        normalize_type s = "time without time zone" →
      ∃ l, TypeMapper.map_type s = ("int32", some l, some 1) ∧ l ≠ "") := by
  constructor
  · rintro (h | h | h) <;>
      exact ⟨"org.apache.kafka.connect.data.Timestamp",
        by unfold TypeMapper.map_type; rw [h]; decide, by decide⟩
  · rintro (h | h | h | h)
    · exact ⟨"org.apache.kafka.connect.data.Date",
        by unfold TypeMapper.map_type; rw [h]; decide, by decide⟩
    all_goals
      exact ⟨"org.apache.kafka.connect.data.Time",
        by unfold TypeMapper.map_type; rw [h]; decide, by decide⟩

/-- Witness for C2 at concrete inputs (mixed case, surrounding whitespace). -/
theorem map_type_temporal_spec_witness :
    (∃ l, TypeMapper.map_type "  TIMESTAMP " = ("int64", some l, some 1) ∧ l ≠ "") ∧
    (∃ l, TypeMapper.map_type "Date" = ("int32", some l, some 1) ∧ l ≠ "") :=
  ⟨(map_type_temporal_spec "  TIMESTAMP ").1 (Or.inl (by decide)),
   (map_type_temporal_spec "Date").2 (Or.inl (by decide))⟩

/-- C3: `map_type` is total by construction, and every string whose
normalized form is in neither the temporal table nor the basic-type table —
array-suffixed, JSON-like and fully unknown names included — falls back to
target type `string` with no logical-type name and no extra properties. -/
theorem map_type_unknown_fallback (s : String)
    (h1 : TypeMapper.TEMPORAL_TYPES.lookup (normalize_type s) = none)
    (h2 : TypeMapper.TYPE_MAP.lookup (normalize_type s) = none) :
    TypeMapper.map_type s = ("string", none, none) := by
  simp only [TypeMapper.map_type, h1, h2]
  split_ifs <;> rfl

/-- Witness for C3: an array type, a JSON-like type and a fully unknown
type all fall back to `string` with no logical annotations. -/
theorem map_type_unknown_fallback_witness :
    TypeMapper.map_type "integer[]" = ("string", none, none) ∧
    TypeMapper.map_type "jsonb" = ("string", none, none) ∧
    TypeMapper.map_type "mz_timestamp" = ("string", none, none) :=
  ⟨map_type_unknown_fallback "integer[]" (by decide) (by decide),
   map_type_unknown_fallback "jsonb" (by decide) (by decide),
   map_type_unknown_fallback "mz_timestamp" (by decide) (by decide)⟩

/-- C5: in both output encodings the derived output topic of a pair is the
input topic with the `-noschema` marker removed and the configured suffix
appended; concretely, `orders-noschema` with suffix `-withschema` derives
`orders-withschema`. -/
theorem output_topic_derivation (output_suffix : String) (sink : Sink)
    (schema : SchemaDocument) (t : String) (h : sink.topic = some t) :
    (∃ ls, properties_entry output_suffix sink schema = some ls ∧
      ls.get? 2 =
        some ("output.topic." ++ t ++ "=" ++ (replace_noschema t ++ output_suffix))) ∧
    (∃ e, json_entry output_suffix sink schema = some (sink.name, e) ∧
      e.output_topic = replace_noschema t ++ output_suffix) ∧
    replace_noschema "orders-noschema" ++ "-withschema" = "orders-withschema" := by
  have hp : properties_entry output_suffix sink schema =
      some ["# Sink: " ++ sink.name ++ " (from " ++ sink.source_object ++ ")",
            "schema.topic." ++ t ++ "=" ++ dumps_schema_compact schema,
            "output.topic." ++ t ++ "=" ++ (replace_noschema t ++ output_suffix),
            ""] := by
    unfold properties_entry; rw [h]
  have hj : json_entry output_suffix sink schema =
      some (sink.name,
        { input_topic := t, output_topic := replace_noschema t ++ output_suffix,
          source_object := sink.source_object, schema := schema }) := by
    unfold json_entry; rw [h]
  exact ⟨⟨_, hp, rfl⟩, ⟨_, hj, rfl⟩, by decide⟩

/-- Witness for C5 at the spec's concrete example. -/
theorem output_topic_derivation_witness :
    (∃ ls, properties_entry "-withschema"
        ({ name := "orders_json_sink", topic := some "orders-noschema",
           source_object := "orders_view", columns := [] } : Sink)
        ({ type := "struct", fields := [], optional := false,
           name := "materialize.orders_view" } : SchemaDocument) = some ls ∧
      ls.get? 2 =
        some ("output.topic." ++ "orders-noschema" ++ "=" ++
          (replace_noschema "orders-noschema" ++ "-withschema"))) ∧
    (∃ e, json_entry "-withschema"
        ({ name := "orders_json_sink", topic := some "orders-noschema",
           source_object := "orders_view", columns := [] } : Sink)
        ({ type := "struct", fields := [], optional := false,
           name := "materialize.orders_view" } : SchemaDocument) =
        some ("orders_json_sink", e) ∧
      e.output_topic = replace_noschema "orders-noschema" ++ "-withschema") ∧
    replace_noschema "orders-noschema" ++ "-withschema" = "orders-withschema" :=
  output_topic_derivation "-withschema" _ _ "orders-noschema" rfl

/-- C6 counterexample: both formatters fail to return artifact text (the
Python code raises `AttributeError` on `None.replace`) for a sink whose
topic is `None`, so neither encoding is a total function over its
`(sinks, schemas, output_suffix)` inputs. -/
theorem formatters_not_total_counterexample :
    format_properties
      [{ name := "orders_sink", topic := none, source_object := "orders_view",
         columns := [] }]
      [{ type := "struct", fields := [], optional := false,
         name := "materialize.orders_view" }] "-withschema" = none ∧
    format_json
      [{ name := "orders_sink", topic := none, source_object := "orders_view",
         columns := [] }]
      [{ type := "struct", fields := [], optional := false,
         name := "materialize.orders_view" }] "-withschema" = none := by
  exact ⟨rfl, rfl⟩

/-- Every element of a list mapped by an `Option`-valued function to `some`
makes the whole collecting loop succeed. -/
lemma collect_option_total {α β : Type} (f : α → Option β) :
    ∀ l : List α, (∀ a ∈ l, (f a).isSome = true) → ∃ ys, collect_option f l = some ys
  | [], _ => ⟨[], rfl⟩
  | a :: t, h => by
    obtain ⟨y, hy⟩ := Option.isSome_iff_exists.mp (h a (List.mem_cons_self a t))
    obtain ⟨ys, hys⟩ :=
      collect_option_total f t (fun x hx => h x (List.mem_cons_of_mem a hx))
    exact ⟨y :: ys, by simp [collect_option, hy, hys]⟩

/-- C6 (amended): both encodings are deterministic and idempotent — the
same `(sinks, schemas, output_suffix)` input always yields the same
artifact text — and they are total on every input in which each sink's
topic is present (a string rather than `None`). -/
theorem formatters_deterministic_and_total (sinks : List Sink)
    (schemas : List SchemaDocument) (output_suffix : String)
    (h : ∀ s ∈ sinks, s.topic.isSome = true) :
    (∃ text, format_properties sinks schemas output_suffix = some text ∧
      format_properties sinks schemas output_suffix = some text) ∧
    (∃ text, format_json sinks schemas output_suffix = some text ∧
      format_json sinks schemas output_suffix = some text) := by
  have hzip : ∀ p ∈ sinks.zip schemas, p.1.topic.isSome = true := by
    intro p hp
    exact h p.1 (List.of_mem_zip hp).1
  constructor
  · obtain ⟨ys, hys⟩ := collect_option_total
      (fun p => properties_entry output_suffix p.1 p.2) (sinks.zip schemas)
      (by
        intro p hp
        obtain ⟨t, ht⟩ := Option.isSome_iff_exists.mp (hzip p hp)
        simp [properties_entry, ht])
    have hfp : format_properties sinks schemas output_suffix =
        some (String.intercalate "\n"
          (["# Generated schema configurations", "# Materialize JSON Schema Attacher", ""]
            ++ ys.flatten)) := by
      simp [format_properties, hys]
    exact ⟨_, hfp, hfp⟩
  · obtain ⟨ys, hys⟩ := collect_option_total
      (fun p => json_entry output_suffix p.1 p.2) (sinks.zip schemas)
      (by
        intro p hp
        obtain ⟨t, ht⟩ := Option.isSome_iff_exists.mp (hzip p hp)
        simp [json_entry, ht])
    have hfj : format_json sinks schemas output_suffix =
        some (dumps_output_indent
          (ys.foldl (fun acc kv => dict_assign kv.1 kv.2 acc) [])) := by
      simp [format_json, hys]
    exact ⟨_, hfj, hfj⟩

/-- Witness for the amended C6 at a concrete input with a present topic. -/
theorem formatters_deterministic_and_total_witness :
    (∃ text, format_properties
        [{ name := "users_sink", topic := some "users-noschema",
           source_object := "users_view",
           columns := [{ name := "id", type := "bigint", nullable := false,
                         position := 1 }] }]
        [generate_schema
          { name := "users_sink", topic := some "users-noschema",
            source_object := "users_view",
            columns := [{ name := "id", type := "bigint", nullable := false,
                          position := 1 }] }] "-withschema" = some text ∧
      format_properties
        [{ name := "users_sink", topic := some "users-noschema",
           source_object := "users_view",
           columns := [{ name := "id", type := "bigint", nullable := false,
                         position := 1 }] }]
        [generate_schema
          { name := "users_sink", topic := some "users-noschema",
            source_object := "users_view",
            columns := [{ name := "id", type := "bigint", nullable := false,
                          position := 1 }] }] "-withschema" = some text) ∧
    (∃ text, format_json
        [{ name := "users_sink", topic := some "users-noschema",
           source_object := "users_view",
           columns := [{ name := "id", type := "bigint", nullable := false,
                         position := 1 }] }]
        [generate_schema
          { name := "users_sink", topic := some "users-noschema",
            source_object := "users_view",
            columns := [{ name := "id", type := "bigint", nullable := false,
                          position := 1 }] }] "-withschema" = some text ∧
      format_json
        [{ name := "users_sink", topic := some "users-noschema",
           source_object := "users_view",
           columns := [{ name := "id", type := "bigint", nullable := false,
                         position := 1 }] }]
        [generate_schema
          { name := "users_sink", topic := some "users-noschema",
            source_object := "users_view",
            columns := [{ name := "id", type := "bigint", nullable := false,
                          position := 1 }] }] "-withschema" = some text) :=
  formatters_deterministic_and_total _ _ "-withschema" (by decide)

/-- C7: a sink row that matches the catalog query but whose SQL yields no
parsable source object, or whose source object resolves to no columns, is
skipped with its warning while every sibling row in the batch is processed
exactly as if the bad row were absent (so the remaining sinks appear in
catalog iteration order). -/
theorem get_sinks_skips_bad_row (cat : Catalog) (sink_names : Option (List String))
    (pre post : List SinkRow) (bad : SinkRow)
    (hsel : sink_row_matches sink_names bad = true)
    (hbad : (_parse_create_sink bad.create_sql).2 = none ∨
      ∃ obj, (_parse_create_sink bad.create_sql).2 = some obj ∧
        _get_columns cat obj = []) :
    (get_sinks { cat with sinks := pre ++ bad :: post } sink_names).1
      = (get_sinks { cat with sinks := pre ++ post } sink_names).1 ∧
    skip_warning bad ∈ (get_sinks { cat with sinks := pre ++ bad :: post } sink_names).2 := by
  have hq1 : sink_query_rows { cat with sinks := pre ++ bad :: post } sink_names
      = pre.filter (sink_row_matches sink_names)
          ++ bad :: post.filter (sink_row_matches sink_names) := by
    simp [sink_query_rows, List.filter_append, List.filter_cons, hsel]
  have hq2 : sink_query_rows { cat with sinks := pre ++ post } sink_names
      = pre.filter (sink_row_matches sink_names)
          ++ post.filter (sink_row_matches sink_names) := by
    simp [sink_query_rows, List.filter_append]
  have hne : (pre.filter (sink_row_matches sink_names) ++ bad :: post.filter (sink_row_matches sink_names)).isEmpty = false := by simp
  have e1 : get_sinks { cat with sinks := pre ++ bad :: post } sink_names
      = process_sink_rows cat (pre.filter (sink_row_matches sink_names) ++ bad :: post.filter (sink_row_matches sink_names)) := by
    simp [get_sinks, hq1, hne, process_sink_rows_sinks_irrel]
  have hdec : process_sink_rows cat (pre.filter (sink_row_matches sink_names) ++ bad :: post.filter (sink_row_matches sink_names))
      = ((process_sink_rows cat (pre.filter (sink_row_matches sink_names))).1 ++ (process_sink_rows cat (post.filter (sink_row_matches sink_names))).1,
         (process_sink_rows cat (pre.filter (sink_row_matches sink_names))).2 ++
           (skip_warning bad :: (process_sink_rows cat (post.filter (sink_row_matches sink_names))).2)) := by
    have h1 : pre.filter (sink_row_matches sink_names) ++ bad :: post.filter (sink_row_matches sink_names)
        = pre.filter (sink_row_matches sink_names) ++ ([bad] ++ post.filter (sink_row_matches sink_names)) := by simp
    rw [h1, process_sink_rows_append, process_sink_rows_append,
        process_single_bad cat bad hbad]
    simp
  have hmemw : skip_warning bad ∈
      (get_sinks { cat with sinks := pre ++ bad :: post } sink_names).2 := by
    rw [e1, hdec]
    exact List.mem_append.mpr (Or.inr (List.mem_cons_self _ _))
  refine ⟨?_, hmemw⟩
  rw [e1, hdec]
  by_cases h2 : (pre.filter (sink_row_matches sink_names) ++ post.filter (sink_row_matches sink_names)).isEmpty
  · have hb : pre.filter (sink_row_matches sink_names) = [] ∧ post.filter (sink_row_matches sink_names) = [] := by
      simpa [List.isEmpty_iff, List.append_eq_nil] using h2
    rw [hb.1, hb.2]
    simp [get_sinks, hq2, hb.1, hb.2, process_sink_rows]
  · have h2' : (pre.filter (sink_row_matches sink_names) ++ post.filter (sink_row_matches sink_names)).isEmpty = false :=
      Bool.eq_false_iff.mpr h2
    have e2 : get_sinks { cat with sinks := pre ++ post } sink_names
        = process_sink_rows cat (pre.filter (sink_row_matches sink_names) ++ post.filter (sink_row_matches sink_names)) := by
      simp [get_sinks, hq2, h2', process_sink_rows_sinks_irrel]
    rw [e2, process_sink_rows_append]

/-- Witness for C7: the bad sibling of a good sink is skipped with its
warning and the good sink is still extracted. -/
theorem get_sinks_skips_bad_row_witness :
    (get_sinks { c7_catalog with sinks := [c7_good_row, c7_bad_row] } none).1
      = (get_sinks { c7_catalog with sinks := [c7_good_row] } none).1 ∧
    skip_warning c7_bad_row ∈
      (get_sinks { c7_catalog with sinks := [c7_good_row, c7_bad_row] } none).2 :=
  get_sinks_skips_bad_row c7_catalog none [c7_good_row] [] c7_bad_row (by decide)
    (Or.inl (by decide))

/-- C8: an empty catalog result (here: after name filtering) makes
`get_sinks` return the empty list with the "No Kafka sinks found" warning —
no exception — and `main` then terminates with exit code 1. -/
theorem get_sinks_empty_and_exit_code (cat : Catalog) (sink_names : Option (List String))
    (schema_namespace output_suffix : String) (fmt : OutputFormat)
    (h : sink_query_rows cat sink_names = []) :
    get_sinks cat sink_names = ([], ["No Kafka sinks found"]) ∧
    (main_run cat sink_names schema_namespace output_suffix fmt).1 = 1 := by
  have hg : get_sinks cat sink_names = ([], ["No Kafka sinks found"]) := by
    simp [get_sinks, h]
  refine ⟨hg, ?_⟩
  simp [main_run, hg]

/-- Witness for C8: a name filter that matches no sink. -/
theorem get_sinks_empty_and_exit_code_witness :
    get_sinks c8_catalog (some ["other_sink"]) = ([], ["No Kafka sinks found"]) ∧
    (main_run c8_catalog (some ["other_sink"]) "materialize" "-withschema"
      OutputFormat.properties).1 = 1 :=
  get_sinks_empty_and_exit_code c8_catalog (some ["other_sink"]) "materialize"
    "-withschema" OutputFormat.properties (by decide)

/-- C9: the catalog connection of `get_sinks` is acquired and released
within the call — released before the call returns on the success path and
on the failure path alike — and consecutive calls each use their own
acquire/release pair, never holding a connection across calls. -/
theorem get_sinks_scoped_connection (cat : Catalog) (sink_names : Option (List String))
    (query_ok : Bool) :
    (get_sinks_traced cat sink_names query_ok).2
      = [ConnEvent.acquired, ConnEvent.released] ∧
    (get_sinks_traced cat sink_names true).1 = Except.ok (get_sinks cat sink_names) ∧
    (get_sinks_traced cat sink_names false).1
      = Except.error "Failed to execute catalog query" ∧
    (get_sinks_traced cat sink_names query_ok).2
        ++ (get_sinks_traced cat sink_names query_ok).2
      = [ConnEvent.acquired, ConnEvent.released,
         ConnEvent.acquired, ConnEvent.released] :=
  ⟨rfl, rfl, rfl, rfl⟩

/-- C10: a sink row with a parsable source object and resolvable columns
but no `TOPIC = '...'` clause is not skipped: `get_sinks` appends a `Sink`
whose topic is `None`, without validating the topic. -/
theorem sink_without_topic_is_included (cat : Catalog) (sink_names : Option (List String))
    (row : SinkRow) (obj : String)
    (hmem : row ∈ sink_query_rows cat sink_names)
    (hobj : (_parse_create_sink row.create_sql).2 = some obj)
    (htop : (_parse_create_sink row.create_sql).1 = none)
    (hcols : _get_columns cat obj ≠ []) :
    ({ name := row.name, topic := none, source_object := obj,
       columns := _get_columns cat obj } : Sink) ∈ (get_sinks cat sink_names).1 := by
  have hne : (sink_query_rows cat sink_names).isEmpty = false := by
    rcases hq : sink_query_rows cat sink_names with _ | ⟨a, l⟩
    · rw [hq] at hmem; cases hmem
    · rfl
  simp only [get_sinks, hne, Bool.false_eq_true, if_false]
  exact mem_process_sink_rows cat row obj hobj htop hcols _ hmem

/-- Witness for C10: a `CREATE SINK` statement without a topic clause
still yields its sink, with `topic = none`. -/
theorem sink_without_topic_is_included_witness :
    ({ name := "orders_sink", topic := none, source_object := "orders_view",
       columns := [{ name := "id", type := "bigint", nullable := false,
                     position := 1 }] } : Sink) ∈ (get_sinks c10_catalog none).1 :=
  sink_without_topic_is_included c10_catalog none c10_row "orders_view" (by decide)
    (by decide) (by decide) (by decide)
